import Mathlib

/-!
Verification of the Next.js router component of `crates/next-core/src/router.rs`.

The development shallowly embeds the router data model and the `route`
operation. JSON replies from the evaluation sandbox are modelled by a
`Json` syntax tree; the serde-derived deserialization of the internally
tagged enum `RouterIncomingMessage` (attribute `serde(tag = "type",
rename_all = "kebab-case")`) is embedded as an executable function following
serde semantics: the tag string selects the variant, a struct variant
requires its `data` field, an unrecognized tag is a deserialization error.
Numbers in the replies are modelled as integers; `u16` and `u8` fields are
range-checked at decode time exactly as serde does.

External collaborators that the source only calls (the turbo-tasks engine,
the module compilation pipeline, the evaluation sandbox, disk access) are
modelled as explicit inputs: `route` receives the result of `to_sys_path`
as an `Option String` and the awaited sandbox outcome as an
`Except String JavaScriptValue`.
-/

/-- JSON values, with numbers modelled as integers (all replies of the
router protocol carry integer numbers). -/
inductive Json where
  | null
  | bool (b : Bool)
  | num (n : Int)
  | str (s : String)
  | arr (elems : List Json)
  | obj (fields : List (String × Json))

/-- Field lookup in a JSON object: first binding of the key, `none` when the
value is not an object or the key is absent. -/
def Json.get_field : Json → String → Option Json
  | .obj fields, key => fields.lookup key
  | _, _ => none

/-- Request descriptor `RouterRequest` (file router.rs, lines 52-60).
Modelled from the spec: the `Query` and `Headers` collaborator types
(crate turbopack-dev-server, not under src/) are mappings of strings to
strings, embedded as association lists. -/
structure RouterRequest where
  method : String
  pathname : String
  query : List (String × String)
  headers : List (String × String)
  deriving DecidableEq

/-- Payload of a `rewrite` reply (router.rs, lines 62-68). -/
structure RewriteResponse where
  url : String
  headers : List String
  deriving DecidableEq

/-- Payload of a `middleware-headers` reply (router.rs, lines 70-76).
The field `status_code` is a `u16` in the source; the bound is enforced by
the deserializer below, as serde does. -/
structure MiddlewareHeadersResponse where
  status_code : Nat
  headers : List String
  deriving DecidableEq

/-- Payload of a `middleware-body` reply (router.rs, lines 78-80), a
newtype around a byte vector. -/
structure MiddlewareBodyResponse where
  val : List Nat
  deriving DecidableEq

/-- Payload of a `full-middleware` reply (router.rs, lines 82-87). -/
structure FullMiddlewareResponse where
  headers : MiddlewareHeadersResponse
  body : List Nat
  deriving DecidableEq

/-- The tag-discriminated wire message (router.rs, lines 89-109). The
`Error` variant of the source carries a `StructuredError`; the router
discards it at this boundary, so it is not modelled as data here. -/
inductive RouterIncomingMessage where
  | rewrite (data : RewriteResponse)
  | middleware_headers (data : MiddlewareHeadersResponse)
  | middleware_body (data : MiddlewareBodyResponse)
  | full_middleware (data : FullMiddlewareResponse)
  | error
  deriving DecidableEq

/-- The public result type `RouterResult` (router.rs, lines 111-117). -/
inductive RouterResult where
  | rewrite (data : RewriteResponse)
  | full_middleware (data : FullMiddlewareResponse)
  | error
  deriving DecidableEq

/-- The `From` conversion (router.rs, lines 119-127): the two implemented
variants keep their payload, everything else collapses to `Error`. -/
def RouterResult.from_incoming : RouterIncomingMessage → RouterResult
  | .rewrite data => .rewrite data
  | .full_middleware data => .full_middleware data
  | _ => .error

/-- serde deserialization of a string field. -/
def deser_string : Json → Except String String
  | .str s => .ok s
  | _ => .error "invalid type: expected a string"

/-- serde deserialization of the elements of a string sequence, visited
left to right; the first failing element aborts the whole sequence. -/
def deser_string_elems : List Json → Except String (List String)
  | [] => .ok []
  | j :: js => do
    let s ← deser_string j
    let rest ← deser_string_elems js
    return s :: rest

/-- serde deserialization of a `Vec of String` field. -/
def deser_string_list : Json → Except String (List String)
  | .arr elems => deser_string_elems elems
  | _ => .error "invalid type: expected a sequence"

/-- serde deserialization of a `u16`: integers outside 0..65535 are a
deserialization error. -/
def deser_u16 : Json → Except String Nat
  | .num n =>
    if 0 ≤ n ∧ n ≤ 65535 then .ok n.toNat
    else .error "invalid value: integer out of range for u16"
  | _ => .error "invalid type: expected u16"

/-- serde deserialization of a `u8`: integers outside 0..255 are a
deserialization error. -/
def deser_u8 : Json → Except String Nat
  | .num n =>
    if 0 ≤ n ∧ n ≤ 255 then .ok n.toNat
    else .error "invalid value: integer out of range for u8"
  | _ => .error "invalid type: expected u8"

/-- serde deserialization of the elements of a byte sequence, visited left
to right; the first failing element aborts the whole sequence. -/
def deser_byte_elems : List Json → Except String (List Nat)
  | [] => .ok []
  | j :: js => do
    let b ← deser_u8 j
    let rest ← deser_byte_elems js
    return b :: rest

/-- serde deserialization of a `Vec of u8` field. -/
def deser_bytes : Json → Except String (List Nat)
  | .arr elems => deser_byte_elems elems
  | _ => .error "invalid type: expected a sequence"

/-- serde deserialization of `RewriteResponse` (camelCase field names). -/
def deser_rewrite_response (j : Json) : Except String RewriteResponse :=
  match j.get_field "url", j.get_field "headers" with
  | some u, some hs => do
    let url ← deser_string u
    let headers ← deser_string_list hs
    return { url := url, headers := headers }
  | _, _ => .error "missing field in RewriteResponse"

/-- serde deserialization of `MiddlewareHeadersResponse`: the source field
`status_code` is renamed to `statusCode` by the camelCase attribute. -/
def deser_middleware_headers_response (j : Json) :
    Except String MiddlewareHeadersResponse :=
  match j.get_field "statusCode", j.get_field "headers" with
  | some sc, some hs => do
    let status_code ← deser_u16 sc
    let headers ← deser_string_list hs
    return { status_code := status_code, headers := headers }
  | _, _ => .error "missing field in MiddlewareHeadersResponse"

/-- serde deserialization of the newtype `MiddlewareBodyResponse`. -/
def deser_middleware_body_response (j : Json) :
    Except String MiddlewareBodyResponse := do
  let bytes ← deser_bytes j
  return { val := bytes }

/-- serde deserialization of `FullMiddlewareResponse`. -/
def deser_full_middleware_response (j : Json) :
    Except String FullMiddlewareResponse :=
  match j.get_field "headers", j.get_field "body" with
  | some hs, some b => do
    let headers ← deser_middleware_headers_response hs
    let body ← deser_bytes b
    return { headers := headers, body := body }
  | _, _ => .error "missing field in FullMiddlewareResponse"

/-- serde deserialization of the internally tagged enum
`RouterIncomingMessage`: the `type` field selects the variant by its
kebab-case name; a struct variant deserializes its `data` field; a tag that
is none of the five variant names is a deserialization error.
Modelled from the spec for the `error` variant only: the payload type
`StructuredError` (crate turbopack-node, not under src/) accepts any
diagnostic payload, so the `error` tag always decodes successfully and the
diagnostic content is discarded at this boundary. -/
def deserialize_router_incoming_message (j : Json) :
    Except String RouterIncomingMessage :=
  match j.get_field "type" with
  | some (.str tag) =>
    if tag = "rewrite" then
      match j.get_field "data" with
      | some d => (deser_rewrite_response d).map .rewrite
      | none => .error "missing field data"
    else if tag = "middleware-headers" then
      match j.get_field "data" with
      | some d => (deser_middleware_headers_response d).map .middleware_headers
      | none => .error "missing field data"
    else if tag = "middleware-body" then
      match j.get_field "data" with
      | some d => (deser_middleware_body_response d).map .middleware_body
      | none => .error "missing field data"
    else if tag = "full-middleware" then
      match j.get_field "data" with
      | some d => (deser_full_middleware_response d).map .full_middleware
      | none => .error "missing field data"
    else if tag = "error" then
      .ok .error
    else
      .error ("unknown variant " ++ tag)
  | some _ => .error "invalid type: tag must be a string"
  | none => .error "missing field type"

/-- The outcome classification of an awaited sandbox call
(enum JavaScriptValue, crate turbopack-node): a textual value, the error
sentinel, or a streaming value. The payload of `value` is modelled as the
parsed JSON tree of the returned text. -/
inductive JavaScriptValue where
  | value (val : Json)
  | error
  | stream

/-- Possible outcomes of one `route` call: a returned `RouterResult`, a
propagated call failure (the `Result::Err` path), or a process abort
raised by a panic (the `unimplemented` macro). -/
inductive RouteOutcome where
  | ok (result : RouterResult)
  | fail (msg : String)
  | panicked (msg : String)
  deriving DecidableEq

/-- True when the outcome returned a `RouterResult`. -/
def RouteOutcome.is_ok : RouteOutcome → Bool
  | .ok _ => true
  | _ => false

/-- True when the outcome is a propagated call failure. -/
def RouteOutcome.is_fail : RouteOutcome → Bool
  | .fail _ => true
  | _ => false

/-- True when the outcome aborted by panicking. -/
def RouteOutcome.is_panicked : RouteOutcome → Bool
  | .panicked _ => true
  | _ => false

/-- The `route` operation (router.rs, lines 182-228), shallowly embedded
over its resolved external inputs: `sys_path` is the result of
`to_sys_path(project_root)`, and `eval_result` the awaited outcome of the
`evaluate` sandbox call. The second component of the result records
whether the `evaluate` call was reached. The body mirrors the source in
order: when `to_sys_path` yields no disk path, route bails with the source
message before evaluating; a failed `evaluate` call propagates; a textual
value is deserialized (a deserialization error propagates, a message is
converted through `RouterResult.from_incoming`); the error sentinel yields
`RouterResult.error`; a streaming value hits the `unimplemented` macro and
panics. The request content is serialized into an argument of the
`evaluate` call and does not influence the classification. -/
def route (request : RouterRequest) (sys_path : Option String)
    (eval_result : Except String JavaScriptValue) : RouteOutcome × Bool :=
  match request, sys_path with
  | _, none =>
    (.fail "Next.js requires a disk path to check for valid routes", false)
  | _, some _ =>
    match eval_result with
    | .error e => (.fail e, true)
    | .ok (.value val) =>
      match deserialize_router_incoming_message val with
      | .ok m => (.ok (RouterResult.from_incoming m), true)
      | .error e => (.fail e, true)
    | .ok .error => (.ok .error, true)
    | .ok .stream => (.panicked "Stream not supported now", true)

/-- The ordered config candidate list (router.rs, lines 32-40). -/
def next_configs : List String := ["next.config.mjs", "next.config.js"]

/-- The middleware candidate list (router.rs, lines 42-50): flat map of the
two directory stems over the configured page extensions. -/
def middleware_files (page_extensions : List String) : List String :=
  ["middleware.", "src/middleware."].flatMap
    (fun f => page_extensions.map (fun ext => f ++ ext))

/-- Modelled from the spec: `find_context_file` (crate turbopack-core, not
under src/) returns the first candidate filename, in list order, that
exists on disk, or not-found. Disk state is abstracted by the predicate
`exists_on_disk`. -/
def find_context_file (exists_on_disk : String → Bool)
    (configs : List String) : Option String :=
  configs.find? exists_on_disk

/-- The found-config aggregation of `extra_config` (router.rs, lines
129-153): the first existing candidate contributes a single compiled-module
handle (represented here by its path), no match contributes the empty set
rather than an error. -/
def extra_config (exists_on_disk : String → Bool)
    (configs : List String) : List String :=
  match find_context_file exists_on_disk configs with
  | some config_path => [config_path]
  | none => []

/-- A sample request for concrete instances. -/
def sample_request : RouterRequest :=
  { method := "GET", pathname := "/", query := [], headers := [] }

/-- The wire reply of the rewrite round-trip instance. -/
def rewrite_reply : Json :=
  .obj [("type", .str "rewrite"),
        ("data", .obj [("url", .str "/foo"),
                       ("headers", .arr [.str "x-test:1"])])]

/-- The wire reply of the full-middleware round-trip instance. -/
def full_middleware_reply : Json :=
  .obj [("type", .str "full-middleware"),
        ("data", .obj [("headers", .obj [("statusCode", .num 200),
                                         ("headers", .arr [])]),
                       ("body", .arr [.num 72, .num 105])])]

/-- A reply with an unrecognized tag. -/
def unknown_tag_reply : Json :=
  .obj [("type", .str "future-kind"), ("data", .obj [])]

/-- Strings in a JSON array deserialize elementwise to the same strings. -/
theorem deser_string_elems_map_str (hs : List String) :
    deser_string_elems (hs.map Json.str) = .ok hs := by
  induction hs with
  | nil => rfl
  | cons h t ih =>
    simp only [List.map_cons, deser_string_elems, deser_string]
    rw [ih]
    rfl

/-- Integers in range 0..255 in a JSON array deserialize elementwise to the
same bytes. -/
theorem deser_byte_elems_map_num (bs : List Nat) (hb : ∀ b ∈ bs, b ≤ 255) :
    deser_byte_elems (bs.map (fun b => Json.num (Int.ofNat b))) = .ok bs := by
  induction bs with
  | nil => rfl
  | cons h t ih =>
    have h1 : (0 : Int) ≤ Int.ofNat h ∧ Int.ofNat h ≤ 255 := by
      refine ⟨Int.ofNat_nonneg h, ?_⟩
      exact Int.ofNat_le.mpr (hb h (List.mem_cons_self h t))
    simp only [List.map_cons, deser_byte_elems, deser_u8, if_pos h1]
    rw [ih fun b hbt => hb b (List.mem_cons_of_mem h hbt)]
    rfl

/-- An in-range status code deserializes as a u16. -/
theorem deser_u16_ok (sc : Int) (h0 : 0 ≤ sc) (h65 : sc ≤ 65535) :
    deser_u16 (.num sc) = .ok sc.toNat := by
  show (if 0 ≤ sc ∧ sc ≤ 65535 then (Except.ok sc.toNat : Except String Nat)
    else .error "invalid value: integer out of range for u16") = .ok sc.toNat
  rw [if_pos ⟨h0, h65⟩]

/-- An out-of-range status code is a u16 deserialization error. -/
theorem deser_u16_out_of_range (n : Int) (hn : n < 0 ∨ 65535 < n) :
    deser_u16 (.num n) = .error "invalid value: integer out of range for u16" := by
  show (if 0 ≤ n ∧ n ≤ 65535 then (Except.ok n.toNat : Except String Nat)
    else .error "invalid value: integer out of range for u16") = _
  rw [if_neg]
  rintro ⟨ha, hb⟩
  rcases hn with hlt | hgt
  · exact absurd ha (not_le.mpr hlt)
  · exact absurd hb (not_le.mpr hgt)

/-- A well-formed middleware-headers payload deserializes to its fields. -/
theorem deser_middleware_headers_ok (sc : Int) (h0 : 0 ≤ sc) (h65 : sc ≤ 65535)
    (hs : List String) :
    deser_middleware_headers_response
      (.obj [("statusCode", .num sc), ("headers", .arr (hs.map .str))]) =
      .ok ⟨sc.toNat, hs⟩ := by
  show (deser_u16 (.num sc) >>= fun status_code =>
    deser_string_elems (hs.map .str) >>= fun headers =>
    (pure (MiddlewareHeadersResponse.mk status_code headers) :
      Except String MiddlewareHeadersResponse)) = .ok ⟨sc.toNat, hs⟩
  rw [deser_u16_ok sc h0 h65]
  show (deser_string_elems (hs.map .str) >>= fun headers =>
    (pure (MiddlewareHeadersResponse.mk sc.toNat headers) :
      Except String MiddlewareHeadersResponse)) = .ok ⟨sc.toNat, hs⟩
  rw [deser_string_elems_map_str hs]
  rfl

/-- The route call on a textual sandbox value is the decode of that value:
a decoded message is converted by the From conversion, a decode error is
propagated. Stated as a definitional unfolding used by the claim proofs. -/
theorem route_value_unfold (req : RouterRequest) (p : String) (j : Json) :
    route req (some p) (.ok (.value j)) =
      (match deserialize_router_incoming_message j with
       | .ok m => (.ok (RouterResult.from_incoming m), true)
       | .error e => (.fail e, true)) := rfl

/-- C1 counterexample: on a streaming sandbox reply `route` aborts by
panicking and returns no `RouterResult` variant at all, refuting the claim
that `route` never aborts on any reply classification including a
streaming reply. -/
theorem route_stream_reply_aborts_cex :
    (route sample_request (some "/project") (.ok .stream)).1.is_panicked = true ∧
    (route sample_request (some "/project") (.ok .stream)).1.is_ok = false :=
  ⟨rfl, rfl⟩

/-- C1 (amended): for every well-formed request, a sandbox reply that is
the error sentinel, or a textual value that decodes to a
`RouterIncomingMessage`, makes `route` return exactly one `RouterResult`;
and every `RouterResult` is one of the three variants Rewrite,
FullMiddleware, Error. Streaming replies are excluded: they abort
(see the counterexample). -/
theorem route_single_reply_classification :
    (∀ (req : RouterRequest) (p : String) (j : Json) (m : RouterIncomingMessage),
      deserialize_router_incoming_message j = .ok m →
      route req (some p) (.ok (.value j)) = (.ok (RouterResult.from_incoming m), true)) ∧
    (∀ (req : RouterRequest) (p : String),
      route req (some p) (.ok .error) = (.ok .error, true)) ∧
    (∀ r : RouterResult,
      (∃ d, r = .rewrite d) ∨ (∃ d, r = .full_middleware d) ∨ r = .error) := by
  refine ⟨?_, ?_, ?_⟩
  · intro req p j m h
    rw [route_value_unfold, h]
  · intro req p
    rfl
  · intro r
    cases r with
    | rewrite d => exact Or.inl ⟨d, rfl⟩
    | full_middleware d => exact Or.inr (Or.inl ⟨d, rfl⟩)
    | error => exact Or.inr (Or.inr rfl)

/-- C1 witness: the amended theorem applied to the concrete rewrite reply. -/
theorem route_single_reply_classification_witness :
    route sample_request (some "/project") (.ok (.value rewrite_reply)) =
      (.ok (RouterResult.from_incoming (.rewrite ⟨"/foo", ["x-test:1"]⟩)), true) :=
  route_single_reply_classification.1 sample_request "/project" rewrite_reply
    (.rewrite ⟨"/foo", ["x-test:1"]⟩) rfl

/-- C2 counterexample: a reply whose type tag is none of the five
recognized tags propagates a call failure (the unknown-variant
deserialization error) instead of decoding to the Error result, refuting
the claimed forward-compatible default. -/
theorem unknown_tag_call_failure_cex :
    (route sample_request (some "/project") (.ok (.value unknown_tag_reply))).1 =
      .fail "unknown variant future-kind" ∧
    (route sample_request (some "/project") (.ok (.value unknown_tag_reply))).1.is_ok
      = false :=
  ⟨rfl, rfl⟩

/-- C2 (amended): a reply whose type tag is outside the five recognized
tags fails deserialization, and `route` propagates that failure as a call
failure; the recognized but unimplemented tags do collapse to the Error
result (shown here on a concrete middleware-body reply). -/
theorem unknown_tag_propagates_failure :
    (∀ (tag : String),
      tag ∉ (["rewrite", "middleware-headers", "middleware-body",
        "full-middleware", "error"] : List String) →
      ∀ (d : Json) (req : RouterRequest) (p : String),
        (route req (some p)
          (.ok (.value (.obj [("type", .str tag), ("data", d)])))).1.is_fail = true) ∧
    (∀ (req : RouterRequest) (p : String),
      route req (some p) (.ok (.value (.obj [("type", .str "middleware-body"),
        ("data", .arr [])]))) = (.ok .error, true)) := by
  constructor
  · intro tag htag d req p
    simp only [List.mem_cons, List.not_mem_nil, or_false, not_or] at htag
    obtain ⟨h1, h2, h3, h4, h5⟩ := htag
    have hget : Json.get_field (.obj [("type", .str tag), ("data", d)]) "type" =
        some (.str tag) := rfl
    have hdeser : deserialize_router_incoming_message
        (.obj [("type", .str tag), ("data", d)]) =
        .error ("unknown variant " ++ tag) := by
      unfold deserialize_router_incoming_message
      rw [hget]
      simp only [if_neg h1, if_neg h2, if_neg h3, if_neg h4, if_neg h5]
    rw [route_value_unfold, hdeser]
    rfl
  · intro req p
    rfl

/-- C2 witness: the amended theorem applied with the concrete tag
redirect, which is none of the five recognized tags. -/
theorem unknown_tag_propagates_failure_witness :
    (route sample_request (some "/project") (.ok (.value (.obj
      [("type", .str "redirect"), ("data", .obj [])])))).1.is_fail = true :=
  unknown_tag_propagates_failure.1 "redirect" (by decide) (.obj [])
    sample_request "/project"

/-- C3: a reply tagged error decodes to the Error result for every
diagnostic payload whatsoever; no payload content causes a call failure. -/
theorem error_tag_decodes_to_error_result (payload : Json)
    (req : RouterRequest) (p : String) :
    route req (some p)
      (.ok (.value (.obj [("type", .str "error"), ("data", payload)]))) =
      (.ok .error, true) := rfl

/-- C3 witness: the theorem applied to a concrete diagnostic payload. -/
theorem error_tag_decodes_to_error_result_witness :
    route sample_request (some "/project")
      (.ok (.value (.obj [("type", .str "error"),
        ("data", .obj [("message", .str "boom"), ("stack", .arr [])])]))) =
      (.ok .error, true) :=
  error_tag_decodes_to_error_result
    (.obj [("message", .str "boom"), ("stack", .arr [])]) sample_request "/project"

/-- C4: decoding is payload-preserving for the two implemented tags: the
concrete rewrite reply decodes to Rewrite with url /foo and headers
x-test:1, and the concrete full-middleware reply decodes to FullMiddleware
with status 200, empty header list, and body bytes 72, 105. -/
theorem implemented_tags_roundtrip :
    route sample_request (some "/project") (.ok (.value rewrite_reply)) =
      (.ok (.rewrite { url := "/foo", headers := ["x-test:1"] }), true) ∧
    route sample_request (some "/project") (.ok (.value full_middleware_reply)) =
      (.ok (.full_middleware
        { headers := { status_code := 200, headers := [] }, body := [72, 105] }),
       true) :=
  ⟨rfl, rfl⟩

/-- C5: a reply tagged with either reserved partial-middleware tag and a
well-formed payload decodes to the Error result: middleware-headers with
any in-range status code and any header list, and middleware-body with any
byte-array payload. -/
theorem reserved_tags_decode_to_error_result :
    (∀ (sc : Int), 0 ≤ sc → sc ≤ 65535 →
      ∀ (hs : List String) (req : RouterRequest) (p : String),
        route req (some p) (.ok (.value (.obj [("type", .str "middleware-headers"),
          ("data", .obj [("statusCode", .num sc),
                         ("headers", .arr (hs.map .str))])]))) =
          (.ok .error, true)) ∧
    (∀ (bs : List Nat), (∀ b ∈ bs, b ≤ 255) →
      ∀ (req : RouterRequest) (p : String),
        route req (some p) (.ok (.value (.obj [("type", .str "middleware-body"),
          ("data", .arr (bs.map (fun b => Json.num (Int.ofNat b))))]))) =
          (.ok .error, true)) := by
  constructor
  · intro sc h0 h65 hs req p
    have hdeser : deserialize_router_incoming_message
        (.obj [("type", .str "middleware-headers"),
               ("data", .obj [("statusCode", .num sc),
                              ("headers", .arr (hs.map .str))])]) =
        .ok (.middleware_headers ⟨sc.toNat, hs⟩) := by
      show (deser_middleware_headers_response
        (.obj [("statusCode", .num sc), ("headers", .arr (hs.map .str))])).map
          RouterIncomingMessage.middleware_headers = _
      rw [deser_middleware_headers_ok sc h0 h65 hs]
      rfl
    rw [route_value_unfold, hdeser]
    rfl
  · intro bs hb req p
    have hbody : deser_middleware_body_response
        (.arr (bs.map (fun b => Json.num (Int.ofNat b)))) = .ok ⟨bs⟩ := by
      show (deser_byte_elems (bs.map (fun b => Json.num (Int.ofNat b))) >>=
        fun bytes => (pure (MiddlewareBodyResponse.mk bytes) :
          Except String MiddlewareBodyResponse)) = .ok ⟨bs⟩
      rw [deser_byte_elems_map_num bs hb]
      rfl
    have hdeser : deserialize_router_incoming_message
        (.obj [("type", .str "middleware-body"),
               ("data", .arr (bs.map (fun b => Json.num (Int.ofNat b))))]) =
        .ok (.middleware_body ⟨bs⟩) := by
      show (deser_middleware_body_response
        (.arr (bs.map (fun b => Json.num (Int.ofNat b))))).map
          RouterIncomingMessage.middleware_body = _
      rw [hbody]
      rfl
    rw [route_value_unfold, hdeser]
    rfl

/-- C5 witness: the theorem applied to a concrete in-range
middleware-headers reply and a concrete middleware-body reply. -/
theorem reserved_tags_decode_to_error_result_witness :
    route sample_request (some "/project") (.ok (.value (.obj
      [("type", .str "middleware-headers"),
       ("data", .obj [("statusCode", .num 200), ("headers", .arr [])])]))) =
      (.ok .error, true) ∧
    route sample_request (some "/project") (.ok (.value (.obj
      [("type", .str "middleware-body"),
       ("data", .arr [.num (Int.ofNat 72), .num (Int.ofNat 105)])]))) =
      (.ok .error, true) :=
  ⟨reserved_tags_decode_to_error_result.1 200 (by decide) (by decide) []
      sample_request "/project",
   reserved_tags_decode_to_error_result.2 [72, 105] (by decide)
      sample_request "/project"⟩

/-- C6: config discovery over the ordered candidate list selects the first
candidate that exists on disk by list order: whenever next.config.mjs
exists it is selected regardless of any other file state, whenever only
next.config.js exists that one is selected, and when neither exists the
aggregation is the empty module set rather than an error. -/
theorem config_candidate_order :
    (∀ ex : String → Bool,
      find_context_file ex next_configs =
        if ex "next.config.mjs" then some "next.config.mjs"
        else if ex "next.config.js" then some "next.config.js"
        else none) ∧
    (∀ ex : String → Bool, ex "next.config.mjs" = true →
      find_context_file ex next_configs = some "next.config.mjs") ∧
    (∀ ex : String → Bool, ex "next.config.mjs" = false →
      ex "next.config.js" = false →
      extra_config ex next_configs = []) := by
  refine ⟨?_, ?_, ?_⟩
  · intro ex
    cases hmjs : ex "next.config.mjs" <;> cases hjs : ex "next.config.js" <;>
      simp [find_context_file, next_configs, List.find?, hmjs, hjs]
  · intro ex h
    simp [find_context_file, next_configs, List.find?, h]
  · intro ex h1 h2
    simp [extra_config, find_context_file, next_configs, List.find?, h1, h2]

/-- C6 witness: the theorem applied to the disk state in which both
candidates exist (the .mjs wins) and to the empty disk state (empty module
set). -/
theorem config_candidate_order_witness :
    find_context_file (fun _ => true) next_configs = some "next.config.mjs" ∧
    extra_config (fun _ => false) next_configs = [] :=
  ⟨config_candidate_order.2.1 (fun _ => true) rfl,
   config_candidate_order.2.2 (fun _ => false) rfl rfl⟩

/-- C7: for every extension list the middleware candidate list is the cross
product of the two stems with the extensions, extensions iterated within
each stem, and the concrete list for js, ts is exactly middleware.js,
middleware.ts, src/middleware.js, src/middleware.ts in that order. -/
theorem middleware_candidate_cross_product :
    (∀ exts : List String,
      middleware_files exts =
        exts.map (fun ext => "middleware." ++ ext) ++
        exts.map (fun ext => "src/middleware." ++ ext)) ∧
    middleware_files ["js", "ts"] =
      ["middleware.js", "middleware.ts", "src/middleware.js", "src/middleware.ts"] := by
  constructor
  · intro exts
    simp [middleware_files]
  · rfl

/-- C8: when the project root does not resolve to an on-disk path, route
fails with the configuration error before the evaluate call is reached,
for every request and for every would-be sandbox outcome; the second
component records that evaluate was not invoked. -/
theorem unresolvable_root_fails_before_evaluate (req : RouterRequest)
    (ev : Except String JavaScriptValue) :
    route req none ev =
      (.fail "Next.js requires a disk path to check for valid routes", false) := rfl

/-- C8 witness: the theorem applied to the sample request and a sandbox
outcome that would have decoded successfully had it been reached. -/
theorem unresolvable_root_fails_before_evaluate_witness :
    route sample_request none (.ok (.value rewrite_reply)) =
      (.fail "Next.js requires a disk path to check for valid routes", false) :=
  unresolvable_root_fails_before_evaluate sample_request (.ok (.value rewrite_reply))

/-- C9: a streaming sandbox reply makes route hit the unimplemented macro:
it panics with the message Stream not supported now and returns no
RouterResult variant. -/
theorem stream_reply_raises_fatal (req : RouterRequest) (p : String) :
    route req (some p) (.ok .stream) = (.panicked "Stream not supported now", true) ∧
    (route req (some p) (.ok .stream)).1.is_ok = false :=
  ⟨rfl, rfl⟩

/-- C9 witness: the theorem applied to the sample request. -/
theorem stream_reply_raises_fatal_witness :
    route sample_request (some "/project") (.ok .stream) =
      (.panicked "Stream not supported now", true) :=
  (stream_reply_raises_fatal sample_request "/project").1

/-- C10: a status code outside 0..65535 in a middleware-headers or a
full-middleware reply fails u16 deserialization, and route propagates a
call failure, returning no RouterResult; the header and body fields are
arbitrary. -/
theorem out_of_range_status_code_is_call_failure :
    ∀ (n : Int), (n < 0 ∨ 65535 < n) →
      ∀ (h b : Json) (req : RouterRequest) (p : String),
        (route req (some p) (.ok (.value (.obj [("type", .str "middleware-headers"),
          ("data", .obj [("statusCode", .num n),
                         ("headers", h)])])))).1.is_fail = true ∧
        (route req (some p) (.ok (.value (.obj [("type", .str "full-middleware"),
          ("data", .obj [("headers", .obj [("statusCode", .num n), ("headers", h)]),
                         ("body", b)])])))).1.is_fail = true := by
  intro n hn h b req p
  have hm : deser_middleware_headers_response
      (.obj [("statusCode", .num n), ("headers", h)]) =
      .error "invalid value: integer out of range for u16" := by
    show (deser_u16 (.num n) >>= fun status_code =>
      deser_string_list h >>= fun headers =>
      (pure (MiddlewareHeadersResponse.mk status_code headers) :
        Except String MiddlewareHeadersResponse)) = _
    rw [deser_u16_out_of_range n hn]
    rfl
  constructor
  · have hdeser : deserialize_router_incoming_message
        (.obj [("type", .str "middleware-headers"),
               ("data", .obj [("statusCode", .num n), ("headers", h)])]) =
        .error "invalid value: integer out of range for u16" := by
      show (deser_middleware_headers_response
        (.obj [("statusCode", .num n), ("headers", h)])).map
          RouterIncomingMessage.middleware_headers = _
      rw [hm]
      rfl
    rw [route_value_unfold, hdeser]
    rfl
  · have hfull : deser_full_middleware_response
        (.obj [("headers", .obj [("statusCode", .num n), ("headers", h)]),
               ("body", b)]) =
        .error "invalid value: integer out of range for u16" := by
      show (deser_middleware_headers_response
        (.obj [("statusCode", .num n), ("headers", h)]) >>= fun headers =>
        deser_bytes b >>= fun body =>
        (pure (FullMiddlewareResponse.mk headers body) :
          Except String FullMiddlewareResponse)) = _
      rw [hm]
      rfl
    have hdeser : deserialize_router_incoming_message
        (.obj [("type", .str "full-middleware"),
               ("data", .obj [("headers", .obj [("statusCode", .num n),
                                                ("headers", h)]),
                              ("body", b)])]) =
        .error "invalid value: integer out of range for u16" := by
      show (deser_full_middleware_response
        (.obj [("headers", .obj [("statusCode", .num n), ("headers", h)]),
               ("body", b)])).map RouterIncomingMessage.full_middleware = _
      rw [hfull]
      rfl
    rw [route_value_unfold, hdeser]
    rfl

/-- C10 witness: the theorem applied at status code 70000 for the
middleware-headers reply and at status code -1 for the full-middleware
reply. -/
theorem out_of_range_status_code_witness :
    (route sample_request (some "/project") (.ok (.value (.obj
      [("type", .str "middleware-headers"),
       ("data", .obj [("statusCode", .num 70000),
                      ("headers", .arr [])])])))).1.is_fail = true ∧
    (route sample_request (some "/project") (.ok (.value (.obj
      [("type", .str "full-middleware"),
       ("data", .obj [("headers", .obj [("statusCode", .num (-1)),
                                        ("headers", .arr [])]),
                      ("body", .arr [])])])))).1.is_fail = true :=
  ⟨(out_of_range_status_code_is_call_failure 70000 (Or.inr (by decide))
      (.arr []) (.arr []) sample_request "/project").1,
   (out_of_range_status_code_is_call_failure (-1) (Or.inl (by decide))
      (.arr []) (.arr []) sample_request "/project").2⟩
